import Mathlib

/-!
Shallow embedding of `src/main.py` (S3BackupDownloader) and proofs about it.

The Python program connects to an S3/MinIO endpoint, lists a bucket
recursively, keeps the objects whose key matches a case-insensitive regex
from position 0 (`re.match` with `re.IGNORECASE`) and whose last-modified
instant lies within the trailing 24 hours, and downloads each match into a
flat local directory.  External collaborators (the `minio` client, the
filesystem, the clock) are modelled as explicit inputs: the listing outcome,
a fetch oracle `fget`, and the current UTC instant `now`.
-/

namespace S3Backup

/-- Core regex abstract syntax sufficient for the patterns the program
compiles with `re.compile(pattern, re.IGNORECASE)`: literal characters,
`.`, alternation, concatenation, Kleene star and the `$` end anchor. -/
inductive Regex where
  | rfail : Regex
  | reps : Regex
  | rchr : Char → Regex
  | rany : Regex
  | reos : Regex
  | rcat : Regex → Regex → Regex
  | ralt : Regex → Regex → Regex
  | rstar : Regex → Regex
deriving DecidableEq

/-- Does `r` accept the empty string at a position that is NOT the end of
the subject string?  The `$` anchor fails here. -/
def nullMid : Regex → Bool
  | Regex.rfail => false
  | Regex.reps => true
  | Regex.rchr _ => false
  | Regex.rany => false
  | Regex.reos => false
  | Regex.rcat a b => nullMid a && nullMid b
  | Regex.ralt a b => nullMid a || nullMid b
  | Regex.rstar _ => true

/-- Does `r` accept the empty string at the end of the subject string?
The `$` anchor succeeds here. -/
def nullEnd : Regex → Bool
  | Regex.rfail => false
  | Regex.reps => true
  | Regex.rchr _ => false
  | Regex.rany => false
  | Regex.reos => true
  | Regex.rcat a b => nullEnd a && nullEnd b
  | Regex.ralt a b => nullEnd a || nullEnd b
  | Regex.rstar _ => true

/-- Case-insensitive character comparison, modelling `re.IGNORECASE`. -/
def chEq (a b : Char) : Bool := a.toLower == b.toLower

/-- Brzozowski derivative of `r` by the character `c`, case-insensitive. -/
def derivRe (r : Regex) (c : Char) : Regex :=
  match r with
  | Regex.rfail => Regex.rfail
  | Regex.reps => Regex.rfail
  | Regex.rchr d => if chEq c d then Regex.reps else Regex.rfail
  | Regex.rany => Regex.reps
  | Regex.reos => Regex.rfail
  | Regex.rcat a b =>
      if nullMid a then
        Regex.ralt (Regex.rcat (derivRe a c) b) (derivRe b c)
      else
        Regex.rcat (derivRe a c) b
  | Regex.ralt a b => Regex.ralt (derivRe a c) (derivRe b c)
  | Regex.rstar a => Regex.rcat (derivRe a c) (Regex.rstar a)

/-- `re.match` semantics over a character list: the pattern must match
starting at position 0 but may stop before the end of the string
(prefix match, not a full-string match). -/
def reMatchList : Regex → List Char → Bool
  | r, [] => nullEnd r
  | r, c :: cs => nullMid r || reMatchList (derivRe r c) cs

/-- `self.pattern.match(s)` viewed as a Boolean: case-insensitive match of
the compiled pattern anchored at position 0 of `s`, allowing trailing
unconsumed characters. -/
def reMatch (r : Regex) (s : String) : Bool :=
  reMatchList r s.data

/-- A literal string as a regex (each character matched case-insensitively). -/
def litRe (s : String) : Regex :=
  s.data.foldr (fun c r => Regex.rcat (Regex.rchr c) r) Regex.reps

/-- The configured pattern of `main()`: `.*DATA.*\.bak$`. -/
def configuredPattern : Regex :=
  Regex.rcat (Regex.rstar Regex.rany)
    (Regex.rcat (litRe "DATA")
      (Regex.rcat (Regex.rstar Regex.rany)
        (Regex.rcat (litRe ".bak") Regex.reos)))

/-- A Python `datetime`: the wall-clock reading in seconds, plus the UTC
offset of its `tzinfo` in seconds (`none` = timezone-naive). -/
structure PyDatetime where
  wall : Int
  tzOffset : Option Int
deriving DecidableEq

/-- Absolute UTC instant of a datetime, treating a naive one as UTC. -/
def instantUTC (dt : PyDatetime) : Int :=
  dt.wall - dt.tzOffset.getD 0

/-- `last_modified.replace(tzinfo=timezone.utc)` applied when
`last_modified.tzinfo is None` (src/main.py lines 82-84). -/
def toAware (dt : PyDatetime) : PyDatetime :=
  if dt.tzOffset.isNone then { dt with tzOffset := some 0 } else dt

/-- `datetime.now(tz)` for a fixed-offset `tz`: the current absolute
instant `now` displayed on that timezone's wall clock. -/
def dtNow (now off : Int) : PyDatetime :=
  { wall := now + off, tzOffset := some off }

/-- Subtraction of a `timedelta` of `secs` seconds. -/
def dtSub (dt : PyDatetime) (secs : Int) : PyDatetime :=
  { dt with wall := dt.wall - secs }

/-- Python `>` on two timezone-aware datetimes: comparison of absolute
instants. -/
def dtGT (a b : PyDatetime) : Bool :=
  decide (a.wall - a.tzOffset.getD 0 > b.wall - b.tzOffset.getD 0)

/-- `S3BackupDownloader.is_recent` (src/main.py lines 70-87): make
`last_modified` offset-aware (naive means UTC), compute
`datetime.now(last_modified.tzinfo) - timedelta(hours=hours)` and compare.
`hours` defaults to 24 at the call site. -/
def is_recent (now : Int) (last_modified : PyDatetime) (hours : Int) : Bool :=
  let lm := toAware last_modified
  let cutoff_time := dtSub (dtNow now (lm.tzOffset.getD 0)) (hours * 3600)
  dtGT lm cutoff_time

/-- An object as yielded by `client.list_objects(bucket, prefix, recursive=True)`. -/
structure S3Object where
  object_name : String
  last_modified : PyDatetime
  size : Int
deriving DecidableEq

/-- One entry of the list built by `find_recent_backups`:
`{'name': ..., 'modified': ..., 'size': ...}` (src/main.py lines 114-118). -/
structure Backup where
  name : String
  modified : PyDatetime
  size : Int
deriving DecidableEq

/-- The dictionary appended for a matching object. -/
def mkBackup (o : S3Object) : Backup :=
  { name := o.object_name, modified := o.last_modified, size := o.size }

/-- Outcome of iterating `client.list_objects`: the objects the generator
yielded, and an exception (`S3Error` or any other) raised after yielding
them, if the listing failed mid-way (`none` = the iteration completed). -/
structure Listing where
  items : List S3Object
  err : Option String
deriving DecidableEq

/-- The `for obj in objects` loop of `find_recent_backups` (src/main.py
lines 109-120): keep, in listing order, every object whose key matches the
pattern and whose last-modified instant is recent (24-hour window). -/
def collectRecent (pat : Regex) (now : Int) : List S3Object → List Backup
  | [] => []
  | o :: rest =>
    if reMatch pat o.object_name then
      if is_recent now o.last_modified 24 then
        mkBackup o :: collectRecent pat now rest
      else
        collectRecent pat now rest
    else
      collectRecent pat now rest

/-- `S3BackupDownloader.find_recent_backups` (src/main.py lines 89-132):
on a listing exception the `except` handlers return `[]`, discarding any
matches collected before the exception; otherwise the collected list is
returned. -/
def find_recent_backups (pat : Regex) (now : Int) (l : Listing) : List Backup :=
  match l.err with
  | some _ => []
  | none => collectRecent pat now l.items

/-- Split a character list on `'/'` (every occurrence, keeping empty pieces). -/
def splitSlash : List Char → List (List Char)
  | [] => [[]]
  | c :: cs =>
    match splitSlash cs with
    | [] => [[]]
    | p :: ps => if c = '/' then [] :: p :: ps else (c :: p) :: ps

/-- Python `pathlib.Path(s).name`: the final path component.  `pathlib`
drops empty components and `'.'` components; `name` is the last remaining
component, or the empty string if none remains. -/
def pathName (s : String) : String :=
  String.mk ((((splitSlash s.data).filter
    fun p => !p.isEmpty && p != ['.']).getLast?).getD [])

/-- `self.download_dir / Path(object_name).name` (src/main.py line 146). -/
def localPath (download_dir object_name : String) : String :=
  download_dir ++ "/" ++ pathName object_name

/-- `S3BackupDownloader.download_file` (src/main.py lines 134-166).  The
fetch oracle `fget` models `client.fget_object`: on success it yields the
content written to the local path; on error it models the raised
exception, which `download_file` catches and turns into `False`.  The
result is the returned Boolean together with the (path, content) write
performed, if any. -/
def download_file (download_dir : String) (fget : String → Except String String)
    (object_name : String) : Bool × Option (String × String) :=
  let local_path := localPath download_dir object_name
  match fget object_name with
  | Except.ok content => (true, some (local_path, content))
  | Except.error _ => (false, none)

/-- Accumulated observations of the download loop of `run` (src/main.py
lines 190-193): the success counter, the object names passed to
`download_file` in order, and the file writes performed in order. -/
structure LoopOut where
  success_count : Nat
  attempts : List String
  writes : List (String × String)
deriving DecidableEq

/-- The `for backup in backups` loop of `run`: call `download_file` on
every candidate in list order, counting successes. -/
def downloadLoop (download_dir : String) (fget : String → Except String String) :
    List Backup → LoopOut
  | [] => { success_count := 0, attempts := [], writes := [] }
  | b :: rest =>
    let r := download_file download_dir fget b.name
    let out := downloadLoop download_dir fget rest
    { success_count := (if r.1 then 1 else 0) + out.success_count,
      attempts := b.name :: out.attempts,
      writes := (match r.2 with | some w => [w] | none => []) ++ out.writes }

/-- Observable outcome of `S3BackupDownloader.run`: the returned Boolean,
the `succeeded/total` tally logged at the end of the download phase
(`none` when the run stops before downloading), and the loop's attempts
and writes. -/
structure RunResult where
  success : Bool
  tally : Option (Nat × Nat)
  attempts : List String
  writes : List (String × String)
deriving DecidableEq

/-- `S3BackupDownloader.run` (src/main.py lines 168-199): list and filter;
if no candidates, return `False`; otherwise download each candidate,
report `success_count/len(backups)` and return `success_count > 0`. -/
def run (pat : Regex) (now : Int) (l : Listing) (download_dir : String)
    (fget : String → Except String String) : RunResult :=
  let backups := find_recent_backups pat now l
  if backups.isEmpty then
    { success := false, tally := none, attempts := [], writes := [] }
  else
    let out := downloadLoop download_dir fget backups
    { success := decide (out.success_count > 0),
      tally := some (out.success_count, backups.length),
      attempts := out.attempts,
      writes := out.writes }

/-- `main()` (src/main.py lines 215-232): `exit(1)` when `run` returned
`False`, normal termination (status 0) otherwise. -/
def mainExit (pat : Regex) (now : Int) (l : Listing) (download_dir : String)
    (fget : String → Except String String) : Nat :=
  if (run pat now l download_dir fget).success then 0 else 1

/-- The parameters of `S3BackupDownloader.__init__` (src/main.py lines
37-38): there is no transport-security parameter among them. -/
structure InitArgs where
  endpoint : String
  access_key : String
  secret_key : String
  bucket_name : String
  download_dir : String
  regex_pattern : Regex

/-- The arguments the constructor passes to `Minio(...)`. -/
structure MinioClient where
  endpoint : String
  access_key : String
  secret_key : String
  secure : Bool

/-- The `Minio(endpoint, access_key=..., secret_key=..., secure=True)`
call of `__init__` (src/main.py lines 59-64). -/
def initClient (a : InitArgs) : MinioClient :=
  { endpoint := a.endpoint, access_key := a.access_key,
    secret_key := a.secret_key, secure := true }

/-- The content a file at path `p` holds after a sequence of writes is
applied in order: the last write to `p` wins. -/
def finalFile (writes : List (String × String)) (p : String) : Option String :=
  ((writes.filter fun w => w.1 == p).getLast?).map Prod.snd

/-! ### Helper lemmas -/

/-- The collection loop is a filter (in listing order) followed by the
record construction. -/
theorem collectRecent_eq_filter (pat : Regex) (now : Int) (items : List S3Object) :
    collectRecent pat now items
      = (items.filter
          fun o => reMatch pat o.object_name && is_recent now o.last_modified 24).map mkBackup := by
  induction items with
  | nil => rfl
  | cons o rest ih =>
    by_cases h1 : reMatch pat o.object_name = true
    · by_cases h2 : is_recent now o.last_modified 24 = true
      · simp [collectRecent, List.filter_cons, h1, h2, ih]
      · rw [Bool.not_eq_true] at h2
        simp [collectRecent, List.filter_cons, h1, h2, ih]
    · rw [Bool.not_eq_true] at h1
      simp [collectRecent, List.filter_cons, h1, ih]

theorem splitSlash_ne_nil (s : List Char) : splitSlash s ≠ [] := by
  cases s with
  | nil => simp [splitSlash]
  | cons c cs =>
    rcases h : splitSlash cs with _ | ⟨p, ps⟩ <;> simp only [splitSlash, h]
    · simp
    · split <;> simp

theorem splitSlash_append (xs ys : List Char) :
    splitSlash (xs ++ '/' :: ys) = splitSlash xs ++ splitSlash ys := by
  induction xs with
  | nil =>
    rcases h : splitSlash ys with _ | ⟨p, ps⟩
    · exact absurd h (splitSlash_ne_nil ys)
    · simp [splitSlash, h]
  | cons c cs ih =>
    rcases h : splitSlash cs with _ | ⟨q, qs⟩
    · exact absurd h (splitSlash_ne_nil cs)
    · have hu : ∀ t : List Char, splitSlash (c :: t)
          = match splitSlash t with
            | [] => [[]]
            | p :: ps => if c = '/' then [] :: p :: ps else (c :: p) :: ps :=
        fun _ => rfl
      rw [List.cons_append, hu, ih, h, hu, h, List.cons_append]
      by_cases hc : c = '/' <;> simp [hc]

theorem splitSlash_of_no_slash (xs : List Char) (h : ('/' : Char) ∉ xs) :
    splitSlash xs = [xs] := by
  induction xs with
  | nil => rfl
  | cons c cs ih =>
    have hc : ¬ c = '/' := fun hc => h (hc ▸ List.mem_cons_self c cs)
    have hcs : ('/' : Char) ∉ cs := fun hm => h (List.mem_cons_of_mem _ hm)
    simp [splitSlash, ih hcs, hc]

/-- Joining any directory part to a plain filename and taking
`Path(...).name` returns the filename. -/
theorem pathName_append (pre name : String)
    (h1 : ('/' : Char) ∉ name.data) (h2 : name.data ≠ []) (h3 : name.data ≠ ['.']) :
    pathName (pre ++ "/" ++ name) = name := by
  have hd : (pre ++ "/" ++ name).data = pre.data ++ '/' :: name.data := by
    simp [String.data_append]
  rw [pathName, hd, splitSlash_append, List.filter_append,
    splitSlash_of_no_slash name.data h1]
  have hf : (List.filter (fun p => !p.isEmpty && p != ['.']) [name.data])
      = [name.data] := by
    simp [List.filter_cons, h2, h3]
  rw [hf, List.getLast?_concat]
  rfl

theorem downloadLoop_count (download_dir : String)
    (fget : String → Except String String) (bs : List Backup) :
    (downloadLoop download_dir fget bs).success_count
      = bs.countP fun b => (download_file download_dir fget b.name).1 := by
  induction bs with
  | nil => rfl
  | cons b rest ih =>
    by_cases h : (download_file download_dir fget b.name).1 = true
    · simp [downloadLoop, List.countP_cons, h, ih, Nat.add_comm]
    · rw [Bool.not_eq_true] at h
      simp [downloadLoop, List.countP_cons, h, ih]

theorem downloadLoop_attempts (download_dir : String)
    (fget : String → Except String String) (bs : List Backup) :
    (downloadLoop download_dir fget bs).attempts = bs.map Backup.name := by
  induction bs with
  | nil => rfl
  | cons b rest ih => simp [downloadLoop, ih]

/-! ### Claims -/

/-- C1: an object returned by a completed bucket listing appears in the
candidate list of `find_recent_backups` if and only if its key matches
the configured pattern case-insensitively from position 0 (prefix match)
and its last-modified instant lies within the trailing 24-hour window. -/
theorem candidate_mem_iff (pat : Regex) (now : Int) (items : List S3Object)
    (o : S3Object) (ho : o ∈ items) :
    mkBackup o ∈ find_recent_backups pat now { items := items, err := none }
      ↔ (reMatch pat o.object_name = true ∧ is_recent now o.last_modified 24 = true) := by
  show mkBackup o ∈ collectRecent pat now items ↔ _
  rw [collectRecent_eq_filter]
  constructor
  · intro hmem
    rcases List.mem_map.mp hmem with ⟨o', ho', heq⟩
    rcases List.mem_filter.mp ho' with ⟨_, hcond⟩
    simp only [Bool.and_eq_true] at hcond
    rcases hcond with ⟨hm, hr⟩
    have hn : o'.object_name = o.object_name ∧ o'.last_modified = o.last_modified
        ∧ o'.size = o.size := by
      simpa [mkBackup, Backup.mk.injEq] using heq
    exact ⟨hn.1 ▸ hm, hn.2.1 ▸ hr⟩
  · rintro ⟨hm, hr⟩
    exact List.mem_map.mpr ⟨o, List.mem_filter.mpr ⟨ho, by simp [hm, hr]⟩, rfl⟩

/-- C5: when the listing raises (S3 error or any other exception), the
exception does not propagate: `find_recent_backups` returns the empty
list, even if matching candidates had been collected before the error. -/
theorem listing_error_returns_empty (pat : Regex) (now : Int)
    (items : List S3Object) (e : String) :
    find_recent_backups pat now { items := items, err := some e } = [] := rfl

/-- C6: `is_recent` holds exactly when the object's last-modified instant
is strictly later than (now − 24 hours), comparing in the object's own
timezone when present and treating a naive timestamp as UTC. -/
theorem is_recent_iff_within_window (now : Int) (lm : PyDatetime) :
    is_recent now lm 24 = decide (instantUTC lm > now - 24 * 3600) := by
  rcases lm with ⟨wall, tz⟩
  cases tz <;>
    simp [is_recent, toAware, dtNow, dtSub, dtGT, instantUTC, decide_eq_decide]
  omega

/-- C7: the candidate list equals the matching objects in provider listing
order — the filtered subsequence of the listing, with no sorting. -/
theorem candidates_in_listing_order (pat : Regex) (now : Int) (items : List S3Object) :
    find_recent_backups pat now { items := items, err := none }
      = ((items.filter
          fun o => reMatch pat o.object_name && is_recent now o.last_modified 24).map mkBackup)
    ∧ List.Sublist
        (find_recent_backups pat now { items := items, err := none })
        (items.map mkBackup) := by
  have he : find_recent_backups pat now { items := items, err := none }
      = ((items.filter
          fun o => reMatch pat o.object_name && is_recent now o.last_modified 24).map mkBackup) :=
    collectRecent_eq_filter pat now items
  exact ⟨he, he ▸ (List.filter_sublist items).map mkBackup⟩

/-- C10: the storage client is always constructed with `secure=True`; no
constructor argument can disable transport security. -/
theorem client_always_secure (a : InitArgs) : (initClient a).secure = true := rfl

/-- C2: with a nonempty candidate list of length `N` and `k` successful
downloads, `run` returns success exactly when `k ≥ 1`, reports the tally
`k/N`, and the process exit status is 0 exactly when `k ≥ 1`, else 1. -/
theorem run_success_tally (pat : Regex) (now : Int) (l : Listing)
    (download_dir : String) (fget : String → Except String String)
    (h : find_recent_backups pat now l ≠ []) :
    (run pat now l download_dir fget).success
      = decide (1 ≤ (find_recent_backups pat now l).countP
          (fun b => (download_file download_dir fget b.name).1))
    ∧ (run pat now l download_dir fget).tally
      = some ((find_recent_backups pat now l).countP
            (fun b => (download_file download_dir fget b.name).1),
          (find_recent_backups pat now l).length)
    ∧ mainExit pat now l download_dir fget
      = (if 1 ≤ (find_recent_backups pat now l).countP
            (fun b => (download_file download_dir fget b.name).1)
         then 0 else 1) := by
  have hne : (find_recent_backups pat now l).isEmpty = false := by
    rcases hf : find_recent_backups pat now l with _ | ⟨b, bs⟩
    · exact absurd hf h
    · rfl
  have hrun : run pat now l download_dir fget
      = { success := decide (1 ≤ (find_recent_backups pat now l).countP
            (fun b => (download_file download_dir fget b.name).1)),
          tally := some ((find_recent_backups pat now l).countP
              (fun b => (download_file download_dir fget b.name).1),
            (find_recent_backups pat now l).length),
          attempts := (downloadLoop download_dir fget
            (find_recent_backups pat now l)).attempts,
          writes := (downloadLoop download_dir fget
            (find_recent_backups pat now l)).writes } := by
    simp only [run, hne, Bool.false_eq_true, if_false, downloadLoop_count]
    exact rfl
  refine ⟨by rw [hrun], by rw [hrun], ?_⟩
  rw [mainExit, hrun]
  by_cases hk : 1 ≤ (find_recent_backups pat now l).countP
      (fun b => (download_file download_dir fget b.name).1) <;>
    simp [hk]

/-- C3: `download_file` writes the object to the destination directory
joined with only the final path component of the key; any directory
prefix inside the key is dropped. -/
theorem download_flattens_key (download_dir pre name : String)
    (fget : String → Except String String) (content : String)
    (h1 : ('/' : Char) ∉ name.data) (h2 : name.data ≠ []) (h3 : name.data ≠ ['.'])
    (hok : fget (pre ++ "/" ++ name) = Except.ok content) :
    download_file download_dir fget (pre ++ "/" ++ name)
      = (true, some (download_dir ++ "/" ++ name, content)) := by
  rw [download_file, localPath, pathName_append pre name h1 h2 h3, hok]

/-- C4: whenever the candidate list is empty — no object matched or the
listing failed — `run` reports overall failure without entering the
download phase, and the process exits with status 1. -/
theorem run_no_candidates_fails (pat : Regex) (now : Int) (l : Listing)
    (download_dir : String) (fget : String → Except String String)
    (h : find_recent_backups pat now l = []) :
    run pat now l download_dir fget
      = { success := false, tally := none, attempts := [], writes := [] }
    ∧ mainExit pat now l download_dir fget = 1 := by
  have hrun : run pat now l download_dir fget
      = { success := false, tally := none, attempts := [], writes := [] } := by
    simp [run, h]
  exact ⟨hrun, by simp [mainExit, hrun]⟩

/-- C8: with a nonempty candidate list, `run` calls `download_file` on
every candidate, once each, in list order — a fetch error is caught
inside `download_file`, which returns failure instead of raising, so the
loop always reaches the remaining candidates. -/
theorem run_attempts_every_candidate (pat : Regex) (now : Int) (l : Listing)
    (download_dir : String) (fget : String → Except String String)
    (h : find_recent_backups pat now l ≠ []) :
    (run pat now l download_dir fget).attempts
      = (find_recent_backups pat now l).map Backup.name
    ∧ ∀ k e, fget k = Except.error e →
        download_file download_dir fget k = (false, none) := by
  have hne : (find_recent_backups pat now l).isEmpty = false := by
    rcases hf : find_recent_backups pat now l with _ | ⟨b, bs⟩
    · exact absurd hf h
    · rfl
  constructor
  · simp only [run, hne, Bool.false_eq_true, if_false]
    exact downloadLoop_attempts download_dir fget (find_recent_backups pat now l)
  · intro k e he
    rw [download_file, he]

/-- C9: two candidates whose keys share the same final path component are
written to the identical local path; downloading both in order leaves the
later candidate's content at that path, silently overwriting the earlier
one. -/
theorem shared_final_component_overwrites (download_dir k1 k2 c1 c2 : String)
    (m1 m2 : PyDatetime) (s1 s2 : Int) (fget : String → Except String String)
    (h : pathName k1 = pathName k2)
    (h1 : fget k1 = Except.ok c1) (h2 : fget k2 = Except.ok c2) :
    localPath download_dir k1 = localPath download_dir k2
    ∧ finalFile
        (downloadLoop download_dir fget
          [{ name := k1, modified := m1, size := s1 },
           { name := k2, modified := m2, size := s2 }]).writes
        (localPath download_dir k2)
      = some c2 := by
  have hp : localPath download_dir k1 = localPath download_dir k2 := by
    rw [localPath, localPath, h]
  refine ⟨hp, ?_⟩
  simp [downloadLoop, download_file, h1, h2, finalFile, hp]

/-! ### Concrete instances -/

/-- A timestamp equal to the sample clock instant, timezone-naive. -/
def dtRecent : PyDatetime := { wall := 1700000000, tzOffset := none }

/-- A timestamp about 11.5 days before the sample clock instant. -/
def dtOld : PyDatetime := { wall := 1699000000, tzOffset := some 0 }

def objA : S3Object :=
  { object_name := "folder/DATA_1.bak", last_modified := dtRecent, size := 42 }

def objB : S3Object :=
  { object_name := "folder/notes.txt", last_modified := dtRecent, size := 7 }

def objC : S3Object :=
  { object_name := "folder/DATA_2.bak", last_modified := dtOld, size := 5 }

def sampleObjects : List S3Object := [objA, objB, objC]

/-- A listing that completes normally. -/
def sampleListing : Listing := { items := sampleObjects, err := none }

/-- A listing that raises after yielding matching objects. -/
def failedListing : Listing := { items := sampleObjects, err := some "S3Error" }

/-- A fetch oracle that fails on the one matching key. -/
def fgetBoom : String → Except String String :=
  fun k => if k = "folder/DATA_1.bak" then Except.error "boom" else Except.ok "x"

/-- A fetch oracle that succeeds everywhere, yielding the key as content. -/
def fgetEcho : String → Except String String := fun k => Except.ok k

/-- Witness for C1 at a concrete listing and object. -/
theorem candidate_mem_iff_witness :
    (mkBackup objA
        ∈ find_recent_backups configuredPattern 1700000000
            { items := sampleObjects, err := none })
      ↔ (reMatch configuredPattern objA.object_name = true
          ∧ is_recent 1700000000 objA.last_modified 24 = true) :=
  candidate_mem_iff configuredPattern 1700000000 sampleObjects objA (by decide)

/-- Witness for C2 at a concrete run whose only candidate fails to
download. -/
theorem run_success_tally_witness :
    (run configuredPattern 1700000000 sampleListing "downloads" fgetBoom).success
      = decide (1 ≤ (find_recent_backups configuredPattern 1700000000 sampleListing).countP
          (fun b => (download_file "downloads" fgetBoom b.name).1)) :=
  (run_success_tally configuredPattern 1700000000 sampleListing "downloads" fgetBoom
    (by decide)).1

/-- Witness for C3: a key with nested directory segments lands at the
destination joined with its final segment only. -/
theorem download_flattens_key_witness :
    download_file "downloads" fgetEcho ("folder/sub" ++ "/" ++ "DATA_2024.bak")
      = (true, some ("downloads" ++ "/" ++ "DATA_2024.bak", "folder/sub/DATA_2024.bak")) :=
  download_flattens_key "downloads" "folder/sub" "DATA_2024.bak" fgetEcho
    "folder/sub/DATA_2024.bak" (by decide) (by decide) (by decide) (by rfl)

/-- Witness for C4 at a concrete failed listing. -/
theorem run_no_candidates_fails_witness :
    run configuredPattern 1700000000 failedListing "downloads" fgetEcho
      = { success := false, tally := none, attempts := [], writes := [] }
    ∧ mainExit configuredPattern 1700000000 failedListing "downloads" fgetEcho = 1 :=
  run_no_candidates_fails configuredPattern 1700000000 failedListing "downloads" fgetEcho
    (by rfl)

/-- Witness for C8 at a concrete run whose downloads fail. -/
theorem run_attempts_every_candidate_witness :
    (run configuredPattern 1700000000 sampleListing "downloads" fgetBoom).attempts
      = (find_recent_backups configuredPattern 1700000000 sampleListing).map Backup.name :=
  (run_attempts_every_candidate configuredPattern 1700000000 sampleListing "downloads"
    fgetBoom (by decide)).1

/-- Witness for C9: `a/x.bak` and `b/x.bak` collide and the later download
wins. -/
theorem shared_final_component_overwrites_witness :
    localPath "downloads" "a/x.bak" = localPath "downloads" "b/x.bak"
    ∧ finalFile
        (downloadLoop "downloads" fgetEcho
          [{ name := "a/x.bak", modified := dtRecent, size := 1 },
           { name := "b/x.bak", modified := dtRecent, size := 1 }]).writes
        (localPath "downloads" "b/x.bak")
      = some "b/x.bak" :=
  shared_final_component_overwrites "downloads" "a/x.bak" "b/x.bak" "a/x.bak" "b/x.bak"
    dtRecent dtRecent 1 1 fgetEcho (by decide) (by rfl) (by rfl)

end S3Backup
